import Mathlib

/-!
# tg_slack_bot: channel mappings and message correlations

A shallow embedding of `src/mapping-service.js`, `src/telegram-bot.js` and
`src/slack-bot.js`.

* JavaScript values that are a string, `null` or `undefined` are `Option String`
  (`none` stands for both `null` and `undefined`); `truthy` is the JavaScript
  truthiness test on such a value.
* The mutable fields of `MappingService` become an explicit state that every
  operation takes and returns; a `throw` is an `Except.error` carrying the
  message of the thrown `Error`.
* `saveMappings` only writes the collection to a file and swallows every error,
  so it has no effect on the in-memory state and is not part of the state.
* `loadMappings` reads the collection from the mappings file; without a file, or with
  an unreadable one, the service starts from the empty collection, which is
  `MappingService.empty`.
* The chat id and the message ids that Telegram delivers are integers; their
  `toString()` is the decimal string, `toString` on `Int`.
* Calls to the two platforms are recorded in a trace of `Call`s; what the
  platforms answer is given by a `World`.
-/

namespace TgSlackBot

/-! ## Data model -/

/-- JavaScript truthiness of a value that is a string, `null` or `undefined`. -/
def truthy : Option String → Bool
  | some s => s != ""
  | none => false

/-- One entry of `MappingService.mappings`. -/
structure ChannelMapping where
  telegramChannel : String
  slackChannel : String
deriving DecidableEq, Repr

/-- The object handed to `storeMessageMapping`. -/
structure MessageMapping where
  telegramChannelId : Option String
  telegramMessageId : Option String
  slackChannelId : Option String
  slackMessageTs : Option String
  parentTelegramMessageId : Option String
  parentSlackMessageTs : Option String
deriving DecidableEq, Repr

/-- A JavaScript `Map` with string keys, in insertion order. -/
abbrev JsMap := List (String × MessageMapping)

/-- Method `Map.prototype.set`: overwrite the value of an existing key in place, else append. -/
def JsMap.set : JsMap → String → MessageMapping → JsMap
  | [], k, v => [(k, v)]
  | (k0, v0) :: rest, k, v =>
    if k0 = k then (k, v) :: rest else (k0, v0) :: JsMap.set rest k v

/-- Method `Map.prototype.get`; `none` is `undefined`. -/
def JsMap.get : JsMap → String → Option MessageMapping
  | [], _ => none
  | (k0, v0) :: rest, k => if k0 = k then some v0 else JsMap.get rest k

/-- The state of a `MappingService` instance. -/
structure MappingService where
  mappings : List ChannelMapping
  messageIdMappings : JsMap
deriving DecidableEq, Repr

/-- The service right after construction when no mappings file exists. -/
def MappingService.empty : MappingService :=
  { mappings := [], messageIdMappings := [] }

/-! ## `mapping-service.js` -/

/-- Method `getAllMappings`: a copy of the collection. -/
def getAllMappings (svc : MappingService) : List ChannelMapping :=
  svc.mappings

/-- Method `addMapping`: throws when an entry with both ids exists, else appends. -/
def addMapping (svc : MappingService) (telegramChannelId slackChannelId : String) :
    Except String Unit × MappingService :=
  let existingMapping := svc.mappings.find? fun mapping =>
    decide (mapping.telegramChannel = telegramChannelId) &&
      decide (mapping.slackChannel = slackChannelId)
  match existingMapping with
  | some _ => (Except.error "This mapping already exists", svc)
  | none =>
    (Except.ok (),
      { svc with
        mappings := svc.mappings ++
          [{ telegramChannel := telegramChannelId, slackChannel := slackChannelId }] })

/-- Method `removeMapping`: the collection is replaced by the filtered one first, and the
call throws afterwards when the length did not change. -/
def removeMapping (svc : MappingService) (telegramChannelId slackChannelId : String) :
    Except String Unit × MappingService :=
  let initialLength := svc.mappings.length
  let svc1 : MappingService :=
    { svc with
      mappings := svc.mappings.filter fun mapping =>
        !(decide (mapping.telegramChannel = telegramChannelId) &&
          decide (mapping.slackChannel = slackChannelId)) }
  if svc1.mappings.length = initialLength then
    (Except.error "Mapping not found", svc1)
  else
    (Except.ok (), svc1)

/-- Method `getSlackChannelForTelegramChannel`: the Slack side of the first entry with that
Telegram channel, else `null`. -/
def getSlackChannelForTelegramChannel (svc : MappingService) (telegramChannelId : String) :
    Option String :=
  match svc.mappings.find? fun m => decide (m.telegramChannel = telegramChannelId) with
  | some mapping => some mapping.slackChannel
  | none => none

/-- Method `getTelegramChannelForSlackChannel`: the Telegram side of the first entry with that
Slack channel, else `null`. -/
def getTelegramChannelForSlackChannel (svc : MappingService) (slackChannelId : String) :
    Option String :=
  match svc.mappings.find? fun m => decide (m.slackChannel = slackChannelId) with
  | some mapping => some mapping.telegramChannel
  | none => none

/-- The template string of the Telegram index key. -/
def telegramKey (telegramChannelId telegramMessageId : String) : String :=
  "telegram-" ++ telegramChannelId ++ "-" ++ telegramMessageId

/-- The template string of the Slack index key. -/
def slackKey (slackChannelId slackMessageTs : String) : String :=
  "slack-" ++ slackChannelId ++ "-" ++ slackMessageTs

/-- Method `storeMessageMapping`: one `set` per side whose two ids are both truthy. -/
def storeMessageMapping (svc : MappingService) (messageMapping : MessageMapping) :
    MappingService :=
  let svc1 : MappingService :=
    match messageMapping.telegramChannelId, messageMapping.telegramMessageId with
    | some c, some m =>
      if truthy (some c) && truthy (some m) then
        { svc with
          messageIdMappings := svc.messageIdMappings.set (telegramKey c m) messageMapping }
      else svc
    | _, _ => svc
  match messageMapping.slackChannelId, messageMapping.slackMessageTs with
  | some s, some t =>
    if truthy (some s) && truthy (some t) then
      { svc1 with
        messageIdMappings := svc1.messageIdMappings.set (slackKey s t) messageMapping }
    else svc1
  | _, _ => svc1

/-- Method `getMessageMappingByTelegramMessage`. -/
def getMessageMappingByTelegramMessage (svc : MappingService)
    (telegramChannelId telegramMessageId : String) : Option MessageMapping :=
  svc.messageIdMappings.get (telegramKey telegramChannelId telegramMessageId)

/-- Method `getMessageMappingBySlackMessage`. -/
def getMessageMappingBySlackMessage (svc : MappingService)
    (slackChannelId slackMessageTs : String) : Option MessageMapping :=
  svc.messageIdMappings.get (slackKey slackChannelId slackMessageTs)

/-- Method `getMessageMapping`: the key has no platform tag in front. -/
def getMessageMapping (svc : MappingService)
    (telegramChannelId telegramMessageId : String) : Option MessageMapping :=
  svc.messageIdMappings.get (telegramChannelId ++ "-" ++ telegramMessageId)

/-- An administration command as it reaches the service. -/
inductive AdminOp where
  | add (telegramChannelId slackChannelId : String)
  | remove (telegramChannelId slackChannelId : String)
deriving DecidableEq, Repr

/-- Run one administration command; the thrown error is reported to the user and
the service goes on with the state the call left. -/
def applyAdminOp (svc : MappingService) : AdminOp → MappingService
  | AdminOp.add a b => (addMapping svc a b).2
  | AdminOp.remove a b => (removeMapping svc a b).2

/-- Run a sequence of administration commands, successful or failing. -/
def applyAdminOps (svc : MappingService) (ops : List AdminOp) : MappingService :=
  ops.foldl applyAdminOp svc

/-! ## Platform calls

The handlers talk to Slack through `chat.postMessage`, `chat.update`,
`conversations.info` and `users.info`, and to Telegram through `sendMessage`. -/

/-- The argument object of Slack `chat.postMessage`; `thread_ts` is `none` when the
property is not set. -/
structure SlackPostMessage where
  channel : String
  text : String
  parse : String
  unfurl_links : Bool
  thread_ts : Option String
deriving DecidableEq, Repr

/-- The argument object of Slack `chat.update`. -/
structure SlackUpdate where
  channel : Option String
  ts : Option String
  text : String
  parse : String
deriving DecidableEq, Repr

/-- The options object of Telegram `sendMessage`; `reply_to_message_id` is `none` when
the property is not set. -/
structure TelegramSendOptions where
  parse_mode : String
  reply_to_message_id : Option String
deriving DecidableEq, Repr

/-- One call to a platform. -/
inductive Call where
  | chatPostMessage (options : SlackPostMessage)
  | chatUpdate (options : SlackUpdate)
  | conversationsInfo (channel : String)
  | usersInfo (user : String)
  | sendMessage (chatId : String) (text : String) (options : TelegramSendOptions)
deriving DecidableEq, Repr

/-- What the platforms answer. A call either throws (`Except.error`) or returns:
`chat.postMessage` the `ts` of its result, `conversations.info` the channel name,
`users.info` the real name of the user, `sendMessage` the `message_id` of the sent
message. The answer of `chat.update` is never looked at. -/
structure World where
  chatPostMessage : SlackPostMessage → Except String (Option String)
  conversationsInfo : String → Except String (Option String)
  usersInfo : String → Except String (Option String)
  sendMessage : String → String → TelegramSendOptions → Except String Int

/-- The `chat` of a Telegram message. -/
structure TgChat where
  id : Int
  title : Option String
deriving DecidableEq, Repr

/-- The `from` of a Telegram message. -/
structure TgUser where
  is_bot : Bool
deriving DecidableEq, Repr

/-- The `reply_to_message` of a Telegram message, of which only the id is read. -/
structure TgReplyTo where
  message_id : Int
deriving DecidableEq, Repr

/-- A Telegram channel post. The media fields say whether the property is present. -/
structure TgMessage where
  message_id : Int
  chat : TgChat
  from_user : Option TgUser
  text : Option String
  photo : Bool
  video : Bool
  document : Bool
  voice : Bool
  animation : Bool
  reply_to_message : Option TgReplyTo
deriving DecidableEq, Repr

/-- A Slack message event; `attachments` is the length of the array when present. -/
structure SlackMessage where
  channel : String
  ts : String
  user : Option String
  text : Option String
  attachments : Option Nat
  thread_ts : Option String
  subtype : Option String
  bot_id : Option String
deriving DecidableEq, Repr

/-- What running a handler did: the calls it issued in order, the service afterwards,
and the error it threw, if any. -/
structure Handled where
  calls : List Call
  service : MappingService
  thrown : Option String
deriving DecidableEq, Repr

/-! ## `telegram-bot.js` -/

/-- The text `handleChannelMessage` builds for Slack. -/
def telegramMessageText (msg : TgMessage) : String :=
  let messageText := ""
  let messageText :=
    if truthy msg.chat.title then
      messageText ++ ("*From Telegram channel \"" ++ msg.chat.title.getD "" ++ "\":*\n\n")
    else messageText
  let messageText :=
    if truthy msg.text then messageText ++ msg.text.getD "" else messageText
  if msg.photo || msg.video || msg.document || msg.voice || msg.animation then
    messageText ++
      "\n\n_[Media content is present but cannot be directly embedded - check original channel]_"
  else messageText

/-- The Slack thread a Telegram reply goes to: the `slackMessageTs` of the correlation
of the replied-to message, when there is one and it is truthy. -/
def telegramSlackThreadTs (svc : MappingService) (telegramChannelId : String)
    (msg : TgMessage) : Option String :=
  match msg.reply_to_message with
  | some reply =>
    let replyToId := toString reply.message_id
    match getMessageMappingByTelegramMessage svc telegramChannelId replyToId with
    | some parentMapping =>
      if truthy parentMapping.slackMessageTs then parentMapping.slackMessageTs else none
    | none => none
  | none => none

/-- Method `TelegramBotHandler.handleChannelMessage`. -/
def TelegramBotHandler.handleChannelMessage (w : World) (svc : MappingService)
    (msg : TgMessage) : Handled :=
  let telegramChannelId := toString msg.chat.id
  match getSlackChannelForTelegramChannel svc telegramChannelId with
  | none => { calls := [], service := svc, thrown := none }
  | some slackChannelId =>
    if !truthy (some slackChannelId) then { calls := [], service := svc, thrown := none }
    else
      let messageText := telegramMessageText msg
      let slackThreadTs := telegramSlackThreadTs svc telegramChannelId msg
      let messageOptions : SlackPostMessage :=
        { channel := slackChannelId
          text := messageText
          parse := "full"
          unfurl_links := true
          thread_ts := if truthy slackThreadTs then slackThreadTs else none }
      match w.chatPostMessage messageOptions with
      | Except.error e =>
        { calls := [Call.chatPostMessage messageOptions], service := svc, thrown := some e }
      | Except.ok resultTs =>
        { calls := [Call.chatPostMessage messageOptions]
          service := storeMessageMapping svc
            { telegramChannelId := some telegramChannelId
              telegramMessageId := some (toString msg.message_id)
              slackChannelId := some slackChannelId
              slackMessageTs := resultTs
              parentTelegramMessageId :=
                match msg.reply_to_message with
                | some reply => some (toString reply.message_id)
                | none => none
              parentSlackMessageTs := slackThreadTs }
          thrown := none }

/-- The text `handleEditedChannelMessage` builds for Slack. -/
def telegramEditedText (msg : TgMessage) : String :=
  let messageText := ""
  let messageText :=
    if truthy msg.chat.title then
      messageText ++
        ("*From Telegram channel \"" ++ msg.chat.title.getD "" ++ "\" (edited):*\n\n")
    else messageText
  if truthy msg.text then messageText ++ msg.text.getD "" else messageText

/-- Method `TelegramBotHandler.handleEditedChannelMessage`; an error of `chat.update` is
caught and logged. -/
def TelegramBotHandler.handleEditedChannelMessage (svc : MappingService)
    (msg : TgMessage) : Handled :=
  let telegramChannelId := toString msg.chat.id
  let telegramMessageId := toString msg.message_id
  match getMessageMapping svc telegramChannelId telegramMessageId with
  | none => { calls := [], service := svc, thrown := none }
  | some messageMapping =>
    if !truthy messageMapping.slackMessageTs then
      { calls := [], service := svc, thrown := none }
    else
      { calls := [Call.chatUpdate
          { channel := messageMapping.slackChannelId
            ts := messageMapping.slackMessageTs
            text := telegramEditedText msg
            parse := "full" }]
        service := svc
        thrown := none }

/-- The `channel_post` listener of `TelegramBotHandler.start`: every post goes to
`handleChannelMessage`, and a thrown error is caught and logged. -/
def TelegramBotHandler.onChannelPost (w : World) (svc : MappingService)
    (msg : TgMessage) : Handled :=
  { TelegramBotHandler.handleChannelMessage w svc msg with thrown := none }

/-- The `edited_channel_post` listener of `TelegramBotHandler.start`. -/
def TelegramBotHandler.onEditedChannelPost (svc : MappingService)
    (msg : TgMessage) : Handled :=
  { TelegramBotHandler.handleEditedChannelMessage svc msg with thrown := none }

/-! ## `slack-bot.js` -/

/-- The context lines of a relayed Slack message and the calls that fetch them. When
either call throws, the error is caught and nothing is added to the text. -/
def slackContext (w : World) (message : SlackMessage) : List Call × String :=
  match w.conversationsInfo message.channel with
  | Except.error _ => ([Call.conversationsInfo message.channel], "")
  | Except.ok channelName =>
    let userCalls : List Call :=
      if truthy message.user then [Call.usersInfo (message.user.getD "")] else []
    let userInfo : Except String (Option String) :=
      if truthy message.user then w.usersInfo (message.user.getD "") else Except.ok none
    match userInfo with
    | Except.error _ => (Call.conversationsInfo message.channel :: userCalls, "")
    | Except.ok realName =>
      let messageText := ""
      let messageText :=
        if truthy channelName then
          messageText ++ ("*From Slack #" ++ channelName.getD "" ++ "*\n")
        else messageText
      let messageText :=
        if truthy realName then messageText ++ ("*" ++ realName.getD "" ++ "*: ")
        else messageText
      (Call.conversationsInfo message.channel :: userCalls, messageText)

/-- The text `SlackBotHandler.handleChannelMessage` sends to Telegram, given the
context lines. -/
def slackMessageText (context : String) (message : SlackMessage) : String :=
  let messageText := context ++ (if truthy message.text then message.text.getD "" else "")
  match message.attachments with
  | some n =>
    if n > 0 then
      messageText ++ "\n\n_[Message contains attachments - check original channel]_"
    else messageText
  | none => messageText

/-- The constant `isThreadReply` of `SlackBotHandler.handleChannelMessage`. -/
def isThreadReply (message : SlackMessage) : Bool :=
  truthy message.thread_ts && message.thread_ts != some message.ts

/-- The Telegram message a Slack thread reply answers: the `telegramMessageId` of the
correlation of the thread parent, when there is one and it is truthy. -/
def slackReplyToMessageId (svc : MappingService) (message : SlackMessage) : Option String :=
  if isThreadReply message then
    match getMessageMappingBySlackMessage svc message.channel (message.thread_ts.getD "") with
    | some parentMapping =>
      if truthy parentMapping.telegramMessageId then parentMapping.telegramMessageId else none
    | none => none
  else none

/-- Method `SlackBotHandler.handleChannelMessage`; `telegramBot` says whether `setTelegramBot`
has been called. The send goes through `sendMessageToTelegram`, which puts
`parse_mode: 'Markdown'` in front of the options and rethrows an error of `sendMessage`. -/
def SlackBotHandler.handleChannelMessage (w : World) (telegramBot : Bool)
    (svc : MappingService) (message : SlackMessage) : Handled :=
  let slackChannelId := message.channel
  match getTelegramChannelForSlackChannel svc slackChannelId with
  | none => { calls := [], service := svc, thrown := none }
  | some telegramChannelId =>
    if !truthy (some telegramChannelId) || !telegramBot then
      { calls := [], service := svc, thrown := none }
    else
      let context := slackContext w message
      let messageText := slackMessageText context.2 message
      let replyToMessageId := slackReplyToMessageId svc message
      let telegramOptions : TelegramSendOptions :=
        { parse_mode := "Markdown"
          reply_to_message_id := if truthy replyToMessageId then replyToMessageId else none }
      let send := Call.sendMessage telegramChannelId messageText telegramOptions
      match w.sendMessage telegramChannelId messageText telegramOptions with
      | Except.error e =>
        { calls := context.1 ++ [send], service := svc, thrown := some e }
      | Except.ok message_id =>
        { calls := context.1 ++ [send]
          service := storeMessageMapping svc
            { slackChannelId := some slackChannelId
              slackMessageTs := some message.ts
              telegramChannelId := some telegramChannelId
              telegramMessageId := some (toString message_id)
              parentSlackMessageTs := if isThreadReply message then message.thread_ts else none
              parentTelegramMessageId := replyToMessageId }
          thrown := none }

/-- The message listener of `SlackBotHandler.start`: bot messages are ignored, every
other message goes to `handleChannelMessage`, and a thrown error is caught and logged. -/
def SlackBotHandler.onMessage (w : World) (telegramBot : Bool) (svc : MappingService)
    (message : SlackMessage) : Handled :=
  if message.subtype = some "bot_message" || truthy message.bot_id then
    { calls := [], service := svc, thrown := none }
  else
    { SlackBotHandler.handleChannelMessage w telegramBot svc message with thrown := none }

/-- Whether an entry pairs exactly these two ids, in this order. -/
def ChannelMapping.pairs (e : ChannelMapping) (a b : String) : Prop :=
  e.telegramChannel = a ∧ e.slackChannel = b

instance (e : ChannelMapping) (a b : String) : Decidable (e.pairs a b) := by
  unfold ChannelMapping.pairs; infer_instance

/-- Two entries pair the same two channel ids, taken as an unordered pair. -/
def sameUnorderedPair (e1 e2 : ChannelMapping) : Prop :=
  ({e1.telegramChannel, e1.slackChannel} : Finset String) =
    {e2.telegramChannel, e2.slackChannel}

/-- No two entries at distinct positions pair the same two channel ids, taken as an
unordered pair. -/
def UnorderedPairsUnique (l : List ChannelMapping) : Prop :=
  ∀ (i j : Nat) (e1 e2 : ChannelMapping), l[i]? = some e1 → l[j]? = some e2 → i ≠ j →
    ¬ sameUnorderedPair e1 e2

/-! ## Views used to state the properties -/

/-- The Telegram index key under which `storeMessageMapping` writes a record, if it
writes one on that side. -/
def telegramKeyOf (r : MessageMapping) : Option String :=
  match r.telegramChannelId, r.telegramMessageId with
  | some c, some m =>
    if truthy (some c) && truthy (some m) then some (telegramKey c m) else none
  | _, _ => none

/-- The Slack index key under which `storeMessageMapping` writes a record, if it writes
one on that side. -/
def slackKeyOf (r : MessageMapping) : Option String :=
  match r.slackChannelId, r.slackMessageTs with
  | some s, some t =>
    if truthy (some s) && truthy (some t) then some (slackKey s t) else none
  | _, _ => none

/-- A sequence of `storeMessageMapping` calls. -/
def storeAll (svc : MappingService) (rs : List MessageMapping) : MappingService :=
  rs.foldl storeMessageMapping svc

/-- The four ids of a record are non-empty strings. -/
def FourIds (r : MessageMapping) : Prop :=
  truthy r.telegramChannelId = true ∧ truthy r.telegramMessageId = true ∧
    truthy r.slackChannelId = true ∧ truthy r.slackMessageTs = true

instance (r : MessageMapping) : Decidable (FourIds r) := by
  unfold FourIds; infer_instance

/-- The string has no `-` in it. -/
def HyphenFree (s : String) : Prop :=
  '-' ∉ s.data

/-- The message id and the message timestamp of a record, where present, have no `-`. -/
def MessageIdsHyphenFree (r : MessageMapping) : Prop :=
  (∀ m, r.telegramMessageId = some m → HyphenFree m) ∧
    (∀ t, r.slackMessageTs = some t → HyphenFree t)

/-- Every entry of the index sits under one of the keys of its record, the record is
one of `L`, and both keys of the record lead to it. -/
def IndexesAgree (L : List MessageMapping) (m : JsMap) : Prop :=
  ∀ k r, m.get k = some r →
    r ∈ L ∧ (telegramKeyOf r = some k ∨ slackKeyOf r = some k) ∧
    (∀ k1, telegramKeyOf r = some k1 → m.get k1 = some r) ∧
    (∀ k2, slackKeyOf r = some k2 → m.get k2 = some r)

/-- Every entry of the index sits under one of the keys of its record, and the record
is one of `L`. -/
def KeysOwned (L : List MessageMapping) (m : JsMap) : Prop :=
  ∀ k r, m.get k = some r → r ∈ L ∧ (telegramKeyOf r = some k ∨ slackKeyOf r = some k)

instance (s : String) : Decidable (HyphenFree s) := by
  unfold HyphenFree; infer_instance

/-- Whether a call sends a new message to a platform. -/
def Call.isSend : Call → Bool
  | Call.chatPostMessage _ => true
  | Call.sendMessage _ _ _ => true
  | _ => false

/-! ## Example data -/

/-- A service whose collection holds the one mapping `("100", "C1")`. -/
def serviceOne : MappingService :=
  { mappings := [{ telegramChannel := "100", slackChannel := "C1" }], messageIdMappings := [] }

/-- A correlation of Telegram message `1` of channel `100` with Slack message `5.0` of
channel `C1`. -/
def recordA : MessageMapping :=
  { telegramChannelId := some "100", telegramMessageId := some "1",
    slackChannelId := some "C1", slackMessageTs := some "5.0",
    parentTelegramMessageId := none, parentSlackMessageTs := none }

/-- A correlation of Telegram message `2` of channel `100` with the same Slack message
as `recordA`. -/
def recordB : MessageMapping :=
  { telegramChannelId := some "100", telegramMessageId := some "2",
    slackChannelId := some "C1", slackMessageTs := some "5.0",
    parentTelegramMessageId := none, parentSlackMessageTs := none }

/-- A correlation of Telegram message `3` of channel `100` with Slack message `6.0` of
channel `C1`. -/
def recordC : MessageMapping :=
  { telegramChannelId := some "100", telegramMessageId := some "3",
    slackChannelId := some "C1", slackMessageTs := some "6.0",
    parentTelegramMessageId := none, parentSlackMessageTs := none }

/-- A correlation whose Telegram channel id ends in `-7` and whose message id is `8`. -/
def recordHyphen : MessageMapping :=
  { telegramChannelId := some "-100-7", telegramMessageId := some "8",
    slackChannelId := some "C1", slackMessageTs := some "9.0",
    parentTelegramMessageId := none, parentSlackMessageTs := none }

/-- A world in which every call succeeds: `chat.postMessage` returns the timestamp
`1700000000.000100`, the channel is called `general`, the user `Ann`, and `sendMessage`
returns message id `7`. -/
def worldOne : World :=
  { chatPostMessage := fun _ => Except.ok (some "1700000000.000100")
    conversationsInfo := fun _ => Except.ok (some "general")
    usersInfo := fun _ => Except.ok (some "Ann")
    sendMessage := fun _ _ _ => Except.ok 7 }

/-- The post `hello`, message `1` of the Telegram channel `100` titled `News`. -/
def postHello : TgMessage :=
  { message_id := 1, chat := { id := 100, title := some "News" }, from_user := none,
    text := some "hello", photo := false, video := false, document := false,
    voice := false, animation := false, reply_to_message := none }

/-- The post `postHello` with a photo. -/
def postPhoto : TgMessage :=
  { postHello with photo := true }

/-- The post `postHello` with a sender that Telegram flags as a bot. -/
def postFromBot : TgMessage :=
  { postHello with from_user := some { is_bot := true } }

/-- The edit of `postHello` to the text `hello again`. -/
def editHello : TgMessage :=
  { postHello with text := some "hello again" }

/-- Message `2` of the Telegram channel `100`, a reply to message `1`. -/
def postReply : TgMessage :=
  { postHello with message_id := 2, text := some "re", reply_to_message := some { message_id := 1 } }

/-- A post in the Telegram channel `200`. -/
def postElsewhere : TgMessage :=
  { postHello with chat := { id := 200, title := none } }

/-- A Slack message of user `U1` in channel `C1`, in the thread of message `5.0`. -/
def slackReply : SlackMessage :=
  { channel := "C1", ts := "8.0", user := some "U1", text := some "re", attachments := none,
    thread_ts := some "5.0", subtype := none, bot_id := none }

/-- A Slack message in channel `C9`. -/
def slackElsewhere : SlackMessage :=
  { slackReply with channel := "C9" }

/-- The service `serviceOne` after `recordA` has been stored. -/
def serviceWithA : MappingService :=
  storeMessageMapping serviceOne recordA

/-! ## Theorems -/

/-! ### Channel mappings -/

theorem find_pairs_isSome (l : List ChannelMapping) (a b : String)
    (h : ∃ e ∈ l, e.pairs a b) :
    ∃ e, l.find? (fun mapping => decide (mapping.telegramChannel = a) &&
      decide (mapping.slackChannel = b)) = some e := by
  obtain ⟨e, he, h1, h2⟩ := h
  cases hf : l.find? (fun mapping => decide (mapping.telegramChannel = a) &&
      decide (mapping.slackChannel = b)) with
  | some x => exact ⟨x, rfl⟩
  | none =>
    rw [List.find?_eq_none] at hf
    have := hf e he
    simp [h1, h2] at this

theorem addMapping_of_pairs (svc : MappingService) (a b : String)
    (h : ∃ e ∈ svc.mappings, e.pairs a b) :
    addMapping svc a b = (Except.error "This mapping already exists", svc) := by
  obtain ⟨x, hx⟩ := find_pairs_isSome svc.mappings a b h
  simp [addMapping, hx]

theorem addMapping_of_not_pairs (svc : MappingService) (a b : String)
    (h : ∀ e ∈ svc.mappings, ¬ e.pairs a b) :
    addMapping svc a b = (Except.ok (),
      { svc with mappings := svc.mappings ++ [{ telegramChannel := a, slackChannel := b }] }) := by
  have hf : svc.mappings.find? (fun mapping => decide (mapping.telegramChannel = a) &&
      decide (mapping.slackChannel = b)) = none := by
    rw [List.find?_eq_none]
    intro e he
    have := h e he
    simp only [ChannelMapping.pairs] at this
    simpa using this
  simp [addMapping, hf]

theorem filter_not_pairs_eq_self (l : List ChannelMapping) (a b : String)
    (h : ∀ e ∈ l, ¬ e.pairs a b) :
    l.filter (fun mapping => !(decide (mapping.telegramChannel = a) &&
      decide (mapping.slackChannel = b))) = l := by
  rw [List.filter_eq_self]
  intro e he
  have := h e he
  simp only [ChannelMapping.pairs, not_and_or] at this
  simpa using this

theorem filter_not_pairs_length_ne (l : List ChannelMapping) (a b : String)
    (h : ∃ e ∈ l, e.pairs a b) :
    (l.filter (fun mapping => !(decide (mapping.telegramChannel = a) &&
      decide (mapping.slackChannel = b)))).length ≠ l.length := by
  intro hlen
  have hall := (List.filter_length_eq_length).1 hlen
  obtain ⟨e, he, h1, h2⟩ := h
  have := hall e he
  simp [h1, h2] at this

/-- C1: when the collection already holds an entry with `telegramChannel = a` and
`slackChannel = b`, `addMapping a b` throws the duplicate error and leaves the service
as it was; and from the empty collection, adding `(a, b)` twice succeeds the first time,
fails the second time, and leaves exactly the one entry `(a, b)`. -/
theorem addMapping_duplicate_rejected (svc : MappingService) (a b : String)
    (h : ∃ e ∈ svc.mappings, e.telegramChannel = a ∧ e.slackChannel = b) :
    addMapping svc a b = (Except.error "This mapping already exists", svc) ∧
    (addMapping MappingService.empty a b).1 = Except.ok () ∧
    (addMapping (addMapping MappingService.empty a b).2 a b).1 =
      Except.error "This mapping already exists" ∧
    (addMapping (addMapping MappingService.empty a b).2 a b).2.mappings =
      [{ telegramChannel := a, slackChannel := b }] := by
  refine ⟨addMapping_of_pairs svc a b h, ?_⟩
  have h1 : addMapping MappingService.empty a b = (Except.ok (),
      { mappings := [{ telegramChannel := a, slackChannel := b }],
        messageIdMappings := [] }) := by
    simp [addMapping, MappingService.empty]
  have h2 := addMapping_of_pairs
    { mappings := [{ telegramChannel := a, slackChannel := b }], messageIdMappings := [] }
    a b ⟨_, List.mem_singleton.2 rfl, rfl, rfl⟩
  refine ⟨?_, ?_, ?_⟩ <;> simp [h1, h2]

/-- Witness of C1 on the collection holding `("100", "C1")`. -/
theorem addMapping_duplicate_rejected_witness :
    addMapping serviceOne "100" "C1" =
      (Except.error "This mapping already exists", serviceOne) ∧
    (addMapping MappingService.empty "100" "C1").1 = Except.ok () ∧
    (addMapping (addMapping MappingService.empty "100" "C1").2 "100" "C1").1 =
      Except.error "This mapping already exists" ∧
    (addMapping (addMapping MappingService.empty "100" "C1").2 "100" "C1").2.mappings =
      [{ telegramChannel := "100", slackChannel := "C1" }] :=
  addMapping_duplicate_rejected serviceOne "100" "C1"
    ⟨_, List.mem_singleton.2 rfl, rfl, rfl⟩

/-- C2: when no entry has `telegramChannel = a` and `slackChannel = b`,
`removeMapping a b` throws the not-found error and the service afterwards is the one
before (same entries, same order); when such an entry exists, the call succeeds and no
entry with both ids remains. -/
theorem removeMapping_spec (svc : MappingService) (a b : String) :
    ((∀ e ∈ svc.mappings, ¬ (e.telegramChannel = a ∧ e.slackChannel = b)) →
      removeMapping svc a b = (Except.error "Mapping not found", svc)) ∧
    ((∃ e ∈ svc.mappings, e.telegramChannel = a ∧ e.slackChannel = b) →
      (removeMapping svc a b).1 = Except.ok () ∧
      ∀ e ∈ (removeMapping svc a b).2.mappings,
        ¬ (e.telegramChannel = a ∧ e.slackChannel = b)) := by
  constructor
  · intro h
    have hf := filter_not_pairs_eq_self svc.mappings a b h
    rw [removeMapping]
    simp only [hf]
    simp
  · intro h
    have hne := filter_not_pairs_length_ne svc.mappings a b h
    simp only [removeMapping, if_neg hne, true_and]
    intro e he
    have := (List.mem_filter.1 he).2
    rintro ⟨h1, h2⟩
    simp [h1, h2] at this

/-- Witness of C2: removing `("200", "C2")` from a collection without it, and
`("100", "C1")` from a collection with it. -/
theorem removeMapping_spec_witness :
    removeMapping serviceOne "200" "C2" = (Except.error "Mapping not found", serviceOne) ∧
    ((removeMapping serviceOne "100" "C1").1 = Except.ok () ∧
      ∀ e ∈ (removeMapping serviceOne "100" "C1").2.mappings,
        ¬ (e.telegramChannel = "100" ∧ e.slackChannel = "C1")) :=
  ⟨(removeMapping_spec serviceOne "200" "C2").1 (by decide),
   (removeMapping_spec serviceOne "100" "C1").2 (by decide)⟩

theorem addMapping_nodup (svc : MappingService) (a b : String)
    (h : svc.mappings.Nodup) : (addMapping svc a b).2.mappings.Nodup := by
  by_cases hp : ∃ e ∈ svc.mappings, e.pairs a b
  · rw [addMapping_of_pairs svc a b hp]
    exact h
  · have hn : ∀ e ∈ svc.mappings, ¬ e.pairs a b := fun e he hpe => hp ⟨e, he, hpe⟩
    rw [addMapping_of_not_pairs svc a b hn]
    refine List.Nodup.append h (List.nodup_singleton _) ?_
    intro x hx hx1
    rw [List.mem_singleton] at hx1
    subst hx1
    exact hn _ hx ⟨rfl, rfl⟩

theorem removeMapping_nodup (svc : MappingService) (a b : String)
    (h : svc.mappings.Nodup) : (removeMapping svc a b).2.mappings.Nodup := by
  have hf : (removeMapping svc a b).2.mappings =
      svc.mappings.filter (fun mapping => !(decide (mapping.telegramChannel = a) &&
        decide (mapping.slackChannel = b))) := by
    rw [removeMapping]
    split <;> rfl
  rw [hf]
  exact h.filter _

theorem applyAdminOps_nodup (ops : List AdminOp) (svc : MappingService)
    (h : svc.mappings.Nodup) : (applyAdminOps svc ops).mappings.Nodup := by
  induction ops generalizing svc with
  | nil => exact h
  | cons op rest ih =>
    rw [applyAdminOps, List.foldl_cons]
    apply ih
    cases op with
    | add a b => exact addMapping_nodup svc a b h
    | remove a b => exact removeMapping_nodup svc a b h

/-- C8, as stated, fails: adding `("-100123", "C1")` and then `("C1", "-100123")` to the
empty collection succeeds twice, and the two entries pair the same unordered pair. -/
theorem unordered_pairs_not_unique :
    ¬ UnorderedPairsUnique
      (applyAdminOps MappingService.empty
        [AdminOp.add "-100123" "C1", AdminOp.add "C1" "-100123"]).mappings := by
  intro h
  refine h 0 1 { telegramChannel := "-100123", slackChannel := "C1" }
    { telegramChannel := "C1", slackChannel := "-100123" } rfl rfl (by decide) ?_
  exact Finset.pair_comm _ _

/-- C8, amended: starting from the empty collection, after every sequence of
`addMapping` and `removeMapping` calls (successful or failing), no two entries at distinct
positions have the same `telegramChannel` and the same `slackChannel`. -/
theorem ordered_pairs_unique (ops : List AdminOp) (i j : Nat) (e1 e2 : ChannelMapping)
    (h1 : (applyAdminOps MappingService.empty ops).mappings[i]? = some e1)
    (h2 : (applyAdminOps MappingService.empty ops).mappings[j]? = some e2)
    (hij : i ≠ j) :
    ¬ (e1.telegramChannel = e2.telegramChannel ∧ e1.slackChannel = e2.slackChannel) := by
  have hnd := applyAdminOps_nodup ops MappingService.empty List.nodup_nil
  rintro ⟨ht, hs⟩
  have he : e1 = e2 := by
    cases e1; cases e2; simp_all
  subst he
  obtain ⟨hi, hgi⟩ := List.getElem?_eq_some.1 h1
  obtain ⟨hj, hgj⟩ := List.getElem?_eq_some.1 h2
  exact hij ((hnd.getElem_inj_iff).1 (hgi.trans hgj.symm))

/-- Witness of the amended C8: after `("100", "C1")`, `("100", "C2")` and a rejected
second `("100", "C1")`, the entries at positions `0` and `1` differ. -/
theorem ordered_pairs_unique_witness :
    (applyAdminOps MappingService.empty
        [AdminOp.add "100" "C1", AdminOp.add "100" "C2", AdminOp.add "100" "C1"]).mappings =
      [{ telegramChannel := "100", slackChannel := "C1" },
        { telegramChannel := "100", slackChannel := "C2" }] ∧
    ¬ (("100" : String) = "100" ∧ ("C1" : String) = "C2") :=
  ⟨by decide,
    ordered_pairs_unique
      [AdminOp.add "100" "C1", AdminOp.add "100" "C2", AdminOp.add "100" "C1"]
      0 1 { telegramChannel := "100", slackChannel := "C1" }
      { telegramChannel := "100", slackChannel := "C2" } rfl rfl (by decide)⟩

/-! ### Decimal strings -/

theorem digitChar_ne_t_s (n : Nat) :
    Nat.digitChar (n % 10) ≠ 't' ∧ Nat.digitChar (n % 10) ≠ 's' := by
  have h : n % 10 < 10 := Nat.mod_lt _ (by decide)
  generalize n % 10 = k at h
  interval_cases k <;> decide

theorem toDigitsCore_head (fuel n : Nat) (ds : List Char)
    (h : ∃ c, ds.head? = some c ∧ c ≠ 't' ∧ c ≠ 's') :
    ∃ c, (Nat.toDigitsCore 10 fuel n ds).head? = some c ∧ c ≠ 't' ∧ c ≠ 's' := by
  induction fuel generalizing n ds with
  | zero => simpa [Nat.toDigitsCore] using h
  | succ f ih =>
    simp only [Nat.toDigitsCore]
    split
    · exact ⟨_, rfl, digitChar_ne_t_s _⟩
    · exact ih _ _ ⟨_, rfl, digitChar_ne_t_s _⟩

theorem nat_repr_head (n : Nat) :
    ∃ c, (Nat.repr n).data.head? = some c ∧ c ≠ 't' ∧ c ≠ 's' := by
  simp only [Nat.repr, Nat.toDigits, Nat.toDigitsCore, List.asString]
  split
  · exact ⟨_, rfl, digitChar_ne_t_s _⟩
  · exact toDigitsCore_head _ _ _ ⟨_, rfl, digitChar_ne_t_s _⟩

/-- The decimal string of an integer starts with a character other than `t` and `s`. -/
theorem int_toString_head (i : Int) :
    ∃ c, (toString i).data.head? = some c ∧ c ≠ 't' ∧ c ≠ 's' := by
  cases i with
  | ofNat n => exact nat_repr_head n
  | negSucc n =>
    refine ⟨'-', ?_, by decide, by decide⟩
    show ("-" ++ Nat.repr (n + 1)).data.head? = some '-'
    simp [String.data_append]

theorem int_toString_ne_empty (i : Int) : toString i ≠ "" := by
  obtain ⟨c, hc, _⟩ := int_toString_head i
  intro h
  rw [h] at hc
  simp at hc

theorem truthy_int_toString (i : Int) : truthy (some (toString i)) = true := by
  simp [truthy, int_toString_ne_empty]

/-! ### The index keys -/

theorem telegramKey_ne_slackKey (c m s t : String) : telegramKey c m ≠ slackKey s t := by
  intro h
  have := congrArg String.data h
  simp [telegramKey, slackKey, String.data_append] at this

theorem hyphen_split (c c2 m m2 : List Char) (hm : '-' ∉ m) (hm2 : '-' ∉ m2)
    (h : c ++ '-' :: m = c2 ++ '-' :: m2) : c = c2 ∧ m = m2 := by
  induction c generalizing c2 with
  | nil =>
    cases c2 with
    | nil => simpa using h
    | cons x xs =>
      simp only [List.nil_append, List.cons_append, List.cons.injEq] at h
      exact absurd (h.2 ▸ (by simp : '-' ∈ xs ++ '-' :: m2)) hm
  | cons y ys ih =>
    cases c2 with
    | nil =>
      simp only [List.nil_append, List.cons_append, List.cons.injEq] at h
      exact absurd (h.2.symm ▸ (by simp : '-' ∈ ys ++ '-' :: m)) hm2
    | cons x xs =>
      simp only [List.cons_append, List.cons.injEq] at h
      obtain ⟨h1, h2⟩ := ih xs h.2
      exact ⟨by rw [h.1, h1], h2⟩

theorem telegramKey_inj (c c2 m m2 : String) (hm : HyphenFree m) (hm2 : HyphenFree m2)
    (h : telegramKey c m = telegramKey c2 m2) : c = c2 ∧ m = m2 := by
  have hd := congrArg String.data h
  simp only [telegramKey, String.data_append, List.append_assoc] at hd
  have hd2 := List.append_cancel_left hd
  have := hyphen_split c.data c2.data m.data m2.data hm hm2 (by simpa using hd2)
  exact ⟨String.ext this.1, String.ext this.2⟩

theorem slackKey_inj (s s2 t t2 : String) (ht : HyphenFree t) (ht2 : HyphenFree t2)
    (h : slackKey s t = slackKey s2 t2) : s = s2 ∧ t = t2 := by
  have hd := congrArg String.data h
  simp only [slackKey, String.data_append, List.append_assoc] at hd
  have hd2 := List.append_cancel_left hd
  have := hyphen_split s.data s2.data t.data t2.data ht ht2 (by simpa using hd2)
  exact ⟨String.ext this.1, String.ext this.2⟩

theorem telegramKeyOf_eq_some (r : MessageMapping) (k : String)
    (h : telegramKeyOf r = some k) :
    ∃ c m, r.telegramChannelId = some c ∧ r.telegramMessageId = some m ∧
      k = telegramKey c m := by
  unfold telegramKeyOf at h
  split at h
  · rename_i c m hc hm
    split at h
    · exact ⟨c, m, hc, hm, (Option.some.inj h).symm⟩
    · exact absurd h (by simp)
  · exact absurd h (by simp)

theorem slackKeyOf_eq_some (r : MessageMapping) (k : String)
    (h : slackKeyOf r = some k) :
    ∃ s t, r.slackChannelId = some s ∧ r.slackMessageTs = some t ∧ k = slackKey s t := by
  unfold slackKeyOf at h
  split at h
  · rename_i s t hs ht
    split at h
    · exact ⟨s, t, hs, ht, (Option.some.inj h).symm⟩
    · exact absurd h (by simp)
  · exact absurd h (by simp)

theorem telegramKeyOf_ne_slackKeyOf (r r2 : MessageMapping) (k : String)
    (h : telegramKeyOf r = some k) (h2 : slackKeyOf r2 = some k) : False := by
  obtain ⟨c, m, _, _, hk⟩ := telegramKeyOf_eq_some r k h
  obtain ⟨s, t, _, _, hk2⟩ := slackKeyOf_eq_some r2 k h2
  exact telegramKey_ne_slackKey c m s t (hk.symm.trans hk2)

theorem telegramKeyOf_of_truthy (r : MessageMapping) (c m : String)
    (hc : r.telegramChannelId = some c) (hm : r.telegramMessageId = some m)
    (hct : c ≠ "") (hmt : m ≠ "") : telegramKeyOf r = some (telegramKey c m) := by
  simp [telegramKeyOf, hc, hm, truthy, hct, hmt]

theorem slackKeyOf_of_truthy (r : MessageMapping) (s t : String)
    (hs : r.slackChannelId = some s) (ht : r.slackMessageTs = some t)
    (hst : s ≠ "") (htt : t ≠ "") : slackKeyOf r = some (slackKey s t) := by
  simp [slackKeyOf, hs, ht, truthy, hst, htt]

/-! ### The message index -/

theorem JsMap.get_set (m : JsMap) (k k2 : String) (v : MessageMapping) :
    (m.set k v).get k2 = if k = k2 then some v else m.get k2 := by
  induction m with
  | nil => simp [JsMap.set, JsMap.get]
  | cons p rest ih =>
    obtain ⟨k0, v0⟩ := p
    by_cases h0 : k0 = k
    · subst h0
      by_cases h1 : k0 = k2 <;> simp [JsMap.set, JsMap.get, h1]
    · by_cases h1 : k0 = k2
      · subst h1
        have h2 : ¬ k = k0 := fun h => h0 h.symm
        simp [JsMap.set, JsMap.get, h0, h2]
      · simp [JsMap.set, JsMap.get, h0, h1, ih]

theorem storeMessageMapping_mappings (svc : MappingService) (r : MessageMapping) :
    (storeMessageMapping svc r).mappings = svc.mappings := by
  unfold storeMessageMapping
  split <;> split <;> (try split) <;> (try split) <;> rfl

/-- What a lookup in the index returns after `storeMessageMapping`. -/
theorem storeMessageMapping_get (svc : MappingService) (r : MessageMapping) (k : String) :
    (storeMessageMapping svc r).messageIdMappings.get k =
      if slackKeyOf r = some k then some r
      else if telegramKeyOf r = some k then some r
      else svc.messageIdMappings.get k := by
  unfold storeMessageMapping slackKeyOf telegramKeyOf
  split <;> split <;> (try split) <;> (try split) <;>
    simp_all [JsMap.get_set]

/-! ### The two indexes -/

theorem indexesAgree_store (L : List MessageMapping)
    (hcons : ∀ r1 ∈ L, ∀ r2 ∈ L, telegramKeyOf r1 = telegramKeyOf r2 ↔
      slackKeyOf r1 = slackKeyOf r2)
    (svc : MappingService) (r0 : MessageMapping) (h0 : r0 ∈ L)
    (hinv : IndexesAgree L svc.messageIdMappings) :
    IndexesAgree L (storeMessageMapping svc r0).messageIdMappings := by
  intro k r hk
  rw [storeMessageMapping_get] at hk
  by_cases hs : slackKeyOf r0 = some k
  · rw [if_pos hs] at hk
    have hr : r0 = r := Option.some.inj hk
    subst hr
    refine ⟨h0, Or.inr hs, ?_, ?_⟩
    · intro k1 hk1
      rw [storeMessageMapping_get]
      simp [hk1]
    · intro k2 hk2
      rw [storeMessageMapping_get]
      simp [hk2]
  · rw [if_neg hs] at hk
    by_cases ht : telegramKeyOf r0 = some k
    · rw [if_pos ht] at hk
      have hr : r0 = r := Option.some.inj hk
      subst hr
      refine ⟨h0, Or.inl ht, ?_, ?_⟩
      · intro k1 hk1
        rw [storeMessageMapping_get]
        simp [hk1]
      · intro k2 hk2
        rw [storeMessageMapping_get]
        simp [hk2]
    · rw [if_neg ht] at hk
      obtain ⟨hL, hkey, hget1, hget2⟩ := hinv k r hk
      have hdiff : ¬ (telegramKeyOf r = telegramKeyOf r0) := by
        intro he
        have he2 := (hcons r hL r0 h0).1 he
        rcases hkey with h | h
        · exact ht (he ▸ h)
        · exact hs (he2 ▸ h)
      have hdiff2 : ¬ (slackKeyOf r = slackKeyOf r0) := fun he =>
        hdiff ((hcons r hL r0 h0).2 he)
      refine ⟨hL, hkey, ?_, ?_⟩
      · intro k1 hk1
        rw [storeMessageMapping_get]
        have n1 : ¬ slackKeyOf r0 = some k1 := fun h =>
          telegramKeyOf_ne_slackKeyOf r r0 k1 hk1 h
        have n2 : ¬ telegramKeyOf r0 = some k1 := fun h => hdiff (hk1.trans h.symm)
        rw [if_neg n1, if_neg n2]
        exact hget1 k1 hk1
      · intro k2 hk2
        rw [storeMessageMapping_get]
        have n1 : ¬ slackKeyOf r0 = some k2 := fun h => hdiff2 (hk2.trans h.symm)
        have n2 : ¬ telegramKeyOf r0 = some k2 := fun h =>
          telegramKeyOf_ne_slackKeyOf r0 r k2 h hk2
        rw [if_neg n1, if_neg n2]
        exact hget2 k2 hk2

theorem indexesAgree_storeAll (L : List MessageMapping)
    (hcons : ∀ r1 ∈ L, ∀ r2 ∈ L, telegramKeyOf r1 = telegramKeyOf r2 ↔
      slackKeyOf r1 = slackKeyOf r2)
    (rs : List MessageMapping) (hrs : ∀ r ∈ rs, r ∈ L) (svc : MappingService)
    (hinv : IndexesAgree L svc.messageIdMappings) :
    IndexesAgree L (storeAll svc rs).messageIdMappings := by
  induction rs generalizing svc with
  | nil => exact hinv
  | cons r0 rest ih =>
    rw [storeAll, List.foldl_cons]
    exact ih (fun r hr => hrs r (List.mem_cons_of_mem _ hr)) _
      (indexesAgree_store L hcons svc r0 (hrs r0 (List.mem_cons_self _ _)) hinv)

theorem fourIds_keys (r : MessageMapping) (h : FourIds r) :
    ∃ c m s t, r.telegramChannelId = some c ∧ r.telegramMessageId = some m ∧
      r.slackChannelId = some s ∧ r.slackMessageTs = some t ∧
      telegramKeyOf r = some (telegramKey c m) ∧ slackKeyOf r = some (slackKey s t) := by
  obtain ⟨h1, h2, h3, h4⟩ := h
  cases hc : r.telegramChannelId with
  | none => simp [hc, truthy] at h1
  | some c =>
    cases hm : r.telegramMessageId with
    | none => simp [hm, truthy] at h2
    | some m =>
      cases hs : r.slackChannelId with
      | none => simp [hs, truthy] at h3
      | some s =>
        cases ht : r.slackMessageTs with
        | none => simp [ht, truthy] at h4
        | some t =>
          rw [hc] at h1; rw [hm] at h2; rw [hs] at h3; rw [ht] at h4
          refine ⟨c, m, s, t, rfl, rfl, rfl, rfl, ?_, ?_⟩
          · simp [telegramKeyOf, hc, hm, h1, h2]
          · simp [slackKeyOf, hs, ht, h3, h4]

/-- C3, as stated, fails: after storing `recordA` and then `recordB`, which has another
Telegram message id and the same Slack ids, the lookup by the Telegram ids of `recordA`
returns `recordA`, while the lookup by the Slack ids of `recordA` returns `recordB`. -/
theorem indexes_diverge :
    FourIds recordA ∧ FourIds recordB ∧
    getMessageMappingByTelegramMessage
      (storeAll MappingService.empty [recordA, recordB]) "100" "1" = some recordA ∧
    recordA.slackChannelId = some "C1" ∧ recordA.slackMessageTs = some "5.0" ∧
    getMessageMappingBySlackMessage
      (storeAll MappingService.empty [recordA, recordB]) "C1" "5.0" ≠ some recordA := by
  decide

/-- C3, amended: after any sequence of `storeMessageMapping` calls, from the empty index,
on records whose four ids are non-empty strings, and in which any two records that have
the same Telegram index key also have the same Slack index key and the other way round,
a record returned by the lookup by Telegram ids is returned by the lookup by its own Slack
ids, and a record returned by the lookup by Slack ids is returned by the lookup by its own
Telegram ids. -/
theorem indexes_agree (rs : List MessageMapping)
    (hids : ∀ r ∈ rs, FourIds r)
    (hcons : ∀ r1 ∈ rs, ∀ r2 ∈ rs,
      telegramKeyOf r1 = telegramKeyOf r2 ↔ slackKeyOf r1 = slackKeyOf r2) :
    (∀ c m r, getMessageMappingByTelegramMessage (storeAll MappingService.empty rs) c m =
        some r →
      ∃ s t, r.slackChannelId = some s ∧ r.slackMessageTs = some t ∧
        getMessageMappingBySlackMessage (storeAll MappingService.empty rs) s t = some r) ∧
    (∀ s t r, getMessageMappingBySlackMessage (storeAll MappingService.empty rs) s t =
        some r →
      ∃ c m, r.telegramChannelId = some c ∧ r.telegramMessageId = some m ∧
        getMessageMappingByTelegramMessage (storeAll MappingService.empty rs) c m =
          some r) := by
  have hinv : IndexesAgree rs (storeAll MappingService.empty rs).messageIdMappings :=
    indexesAgree_storeAll rs hcons rs (fun _ h => h) MappingService.empty
      (by intro k r hk; simp [MappingService.empty, JsMap.get] at hk)
  constructor
  · intro c m r hr
    obtain ⟨hL, _, _, hget2⟩ := hinv _ r hr
    obtain ⟨_, _, s, t, _, _, hs, ht, _, hks⟩ := fourIds_keys r (hids r hL)
    exact ⟨s, t, hs, ht, hget2 _ hks⟩
  · intro s t r hr
    obtain ⟨hL, _, hget1, _⟩ := hinv _ r hr
    obtain ⟨c, m, _, _, hc, hm, _, _, hkt, _⟩ := fourIds_keys r (hids r hL)
    exact ⟨c, m, hc, hm, hget1 _ hkt⟩

/-- Witness of the amended C3 on `recordA`, `recordC` and `recordA` again. -/
theorem indexes_agree_witness :
    (∀ r ∈ [recordA, recordC, recordA], FourIds r) ∧
    (∀ r1 ∈ [recordA, recordC, recordA], ∀ r2 ∈ [recordA, recordC, recordA],
      telegramKeyOf r1 = telegramKeyOf r2 ↔ slackKeyOf r1 = slackKeyOf r2) ∧
    (∀ c m r, getMessageMappingByTelegramMessage
        (storeAll MappingService.empty [recordA, recordC, recordA]) c m = some r →
      ∃ s t, r.slackChannelId = some s ∧ r.slackMessageTs = some t ∧
        getMessageMappingBySlackMessage
          (storeAll MappingService.empty [recordA, recordC, recordA]) s t = some r) ∧
    (∀ s t r, getMessageMappingBySlackMessage
        (storeAll MappingService.empty [recordA, recordC, recordA]) s t = some r →
      ∃ c m, r.telegramChannelId = some c ∧ r.telegramMessageId = some m ∧
        getMessageMappingByTelegramMessage
          (storeAll MappingService.empty [recordA, recordC, recordA]) c m = some r) :=
  ⟨by decide, by decide,
    indexes_agree [recordA, recordC, recordA] (by decide) (by decide)⟩

/-! ### Lookups under other keys -/

theorem keysOwned_storeAll (L : List MessageMapping) (rs : List MessageMapping)
    (hrs : ∀ r ∈ rs, r ∈ L) (svc : MappingService)
    (hinv : KeysOwned L svc.messageIdMappings) :
    KeysOwned L (storeAll svc rs).messageIdMappings := by
  induction rs generalizing svc with
  | nil => exact hinv
  | cons r0 rest ih =>
    rw [storeAll, List.foldl_cons]
    refine ih (fun r hr => hrs r (List.mem_cons_of_mem _ hr)) _ ?_
    intro k r hk
    rw [storeMessageMapping_get] at hk
    have h0 := hrs r0 (List.mem_cons_self _ _)
    by_cases hs : slackKeyOf r0 = some k
    · rw [if_pos hs] at hk
      have hr : r0 = r := Option.some.inj hk
      subst hr
      exact ⟨h0, Or.inr hs⟩
    · rw [if_neg hs] at hk
      by_cases ht : telegramKeyOf r0 = some k
      · rw [if_pos ht] at hk
        have hr : r0 = r := Option.some.inj hk
        subst hr
        exact ⟨h0, Or.inl ht⟩
      · rw [if_neg ht] at hk
        exact hinv k r hk

theorem telegram_lookup_unchanged (svc : MappingService) (r : MessageMapping) (c m : String)
    (hm : HyphenFree m) (hr : MessageIdsHyphenFree r)
    (hne : ¬ (r.telegramChannelId = some c ∧ r.telegramMessageId = some m)) :
    getMessageMappingByTelegramMessage (storeMessageMapping svc r) c m =
      getMessageMappingByTelegramMessage svc c m := by
  unfold getMessageMappingByTelegramMessage
  rw [storeMessageMapping_get]
  have n1 : ¬ slackKeyOf r = some (telegramKey c m) := by
    intro h
    obtain ⟨s, t, _, _, hk⟩ := slackKeyOf_eq_some r _ h
    exact telegramKey_ne_slackKey c m s t hk
  have n2 : ¬ telegramKeyOf r = some (telegramKey c m) := by
    intro h
    obtain ⟨c2, m2, hc2, hm2, hk⟩ := telegramKeyOf_eq_some r _ h
    obtain ⟨e1, e2⟩ := telegramKey_inj c c2 m m2 hm (hr.1 m2 hm2) hk
    exact hne ⟨by rw [hc2, e1], by rw [hm2, e2]⟩
  rw [if_neg n1, if_neg n2]

theorem slack_lookup_unchanged (svc : MappingService) (r : MessageMapping) (s t : String)
    (ht : HyphenFree t) (hr : MessageIdsHyphenFree r)
    (hne : ¬ (r.slackChannelId = some s ∧ r.slackMessageTs = some t)) :
    getMessageMappingBySlackMessage (storeMessageMapping svc r) s t =
      getMessageMappingBySlackMessage svc s t := by
  unfold getMessageMappingBySlackMessage
  rw [storeMessageMapping_get]
  have n1 : ¬ slackKeyOf r = some (slackKey s t) := by
    intro h
    obtain ⟨s2, t2, hs2, ht2, hk⟩ := slackKeyOf_eq_some r _ h
    obtain ⟨e1, e2⟩ := slackKey_inj s s2 t t2 ht (hr.2 t2 ht2) hk
    exact hne ⟨by rw [hs2, e1], by rw [ht2, e2]⟩
  have n2 : ¬ telegramKeyOf r = some (slackKey s t) := by
    intro h
    obtain ⟨c, m, _, _, hk⟩ := telegramKeyOf_eq_some r _ h
    exact telegramKey_ne_slackKey c m s t hk.symm
  rw [if_neg n1, if_neg n2]

/-- C10, as stated, fails: the ids `("-100", "7-8")` differ from the ids `("-100-7", "8")`
of `recordHyphen`, all of them non-empty, and yet storing `recordHyphen` changes the
lookup by `("-100", "7-8")` from nothing to `recordHyphen`, a record whose own ids are
not `("-100", "7-8")`. -/
theorem lookup_changed_under_other_ids :
    ¬ (recordHyphen.telegramChannelId = some "-100" ∧
        recordHyphen.telegramMessageId = some "7-8") ∧
    getMessageMappingByTelegramMessage MappingService.empty "-100" "7-8" = none ∧
    getMessageMappingByTelegramMessage
      (storeMessageMapping MappingService.empty recordHyphen) "-100" "7-8" =
        some recordHyphen := by
  decide

/-- C10, amended: for message ids and message timestamps that contain no `-`, storing a
correlation `r` leaves the lookup by Telegram ids `(c, m)` other than those of `r` as it
was, and likewise the lookup by Slack ids `(s, t)` other than those of `r`; and after any
sequence of `storeMessageMapping` calls from the empty index on such records, a lookup
by `(c, m)`, resp. `(s, t)`, only returns a record whose own ids are exactly those. -/
theorem lookup_frame :
    (∀ (svc : MappingService) (r : MessageMapping) (c m : String),
      HyphenFree m → MessageIdsHyphenFree r →
      ¬ (r.telegramChannelId = some c ∧ r.telegramMessageId = some m) →
      getMessageMappingByTelegramMessage (storeMessageMapping svc r) c m =
        getMessageMappingByTelegramMessage svc c m) ∧
    (∀ (svc : MappingService) (r : MessageMapping) (s t : String),
      HyphenFree t → MessageIdsHyphenFree r →
      ¬ (r.slackChannelId = some s ∧ r.slackMessageTs = some t) →
      getMessageMappingBySlackMessage (storeMessageMapping svc r) s t =
        getMessageMappingBySlackMessage svc s t) ∧
    (∀ (rs : List MessageMapping), (∀ r ∈ rs, MessageIdsHyphenFree r) →
      (∀ c m r, HyphenFree m →
        getMessageMappingByTelegramMessage (storeAll MappingService.empty rs) c m = some r →
        r.telegramChannelId = some c ∧ r.telegramMessageId = some m) ∧
      (∀ s t r, HyphenFree t →
        getMessageMappingBySlackMessage (storeAll MappingService.empty rs) s t = some r →
        r.slackChannelId = some s ∧ r.slackMessageTs = some t)) := by
  refine ⟨telegram_lookup_unchanged, slack_lookup_unchanged, ?_⟩
  intro rs hrs
  have hinv : KeysOwned rs (storeAll MappingService.empty rs).messageIdMappings :=
    keysOwned_storeAll rs rs (fun _ h => h) MappingService.empty
      (by intro k r hk; simp [MappingService.empty, JsMap.get] at hk)
  constructor
  · intro c m r hm hget
    obtain ⟨hL, hkey⟩ := hinv _ r hget
    rcases hkey with h | h
    · obtain ⟨c2, m2, hc2, hm2, hk⟩ := telegramKeyOf_eq_some r _ h
      obtain ⟨e1, e2⟩ := telegramKey_inj c c2 m m2 hm ((hrs r hL).1 m2 hm2) hk
      exact ⟨by rw [hc2, e1], by rw [hm2, e2]⟩
    · obtain ⟨s, t, _, _, hk⟩ := slackKeyOf_eq_some r _ h
      exact absurd hk (telegramKey_ne_slackKey c m s t)
  · intro s t r ht hget
    obtain ⟨hL, hkey⟩ := hinv _ r hget
    rcases hkey with h | h
    · obtain ⟨c, m, _, _, hk⟩ := telegramKeyOf_eq_some r _ h
      exact absurd hk.symm (telegramKey_ne_slackKey c m s t)
    · obtain ⟨s2, t2, hs2, ht2, hk⟩ := slackKeyOf_eq_some r _ h
      obtain ⟨e1, e2⟩ := slackKey_inj s s2 t t2 ht ((hrs r hL).2 t2 ht2) hk
      exact ⟨by rw [hs2, e1], by rw [ht2, e2]⟩

theorem recordA_hyphenFree : MessageIdsHyphenFree recordA := by
  constructor <;> intro x hx <;> simp only [recordA, Option.some.injEq] at hx <;>
    subst hx <;> decide

theorem recordC_hyphenFree : MessageIdsHyphenFree recordC := by
  constructor <;> intro x hx <;> simp only [recordC, Option.some.injEq] at hx <;>
    subst hx <;> decide

/-- Witness of the amended C10: storing `recordC` after `recordA` leaves the lookups by
the ids of `recordA` as they were, and the record found under the ids of `recordA` has
exactly those ids. -/
theorem lookup_frame_witness :
    getMessageMappingByTelegramMessage
        (storeMessageMapping (storeAll MappingService.empty [recordA]) recordC) "100" "1" =
      getMessageMappingByTelegramMessage (storeAll MappingService.empty [recordA]) "100" "1" ∧
    getMessageMappingBySlackMessage
        (storeMessageMapping (storeAll MappingService.empty [recordA]) recordC) "C1" "5.0" =
      getMessageMappingBySlackMessage (storeAll MappingService.empty [recordA]) "C1" "5.0" ∧
    (recordA.telegramChannelId = some "100" ∧ recordA.telegramMessageId = some "1") ∧
    (recordA.slackChannelId = some "C1" ∧ recordA.slackMessageTs = some "5.0") :=
  ⟨lookup_frame.1 (storeAll MappingService.empty [recordA]) recordC "100" "1"
      (by decide) recordC_hyphenFree (by decide),
    lookup_frame.2.1 (storeAll MappingService.empty [recordA]) recordC "C1" "5.0"
      (by decide) recordC_hyphenFree (by decide),
    (lookup_frame.2.2 [recordA, recordC]
      (by
        intro r hr
        simp only [List.mem_cons, List.mem_singleton, List.not_mem_nil, or_false] at hr
        rcases hr with h | h
        · exact h ▸ recordA_hyphenFree
        · exact h ▸ recordC_hyphenFree)).1 "100" "1" recordA (by decide) (by decide),
    (lookup_frame.2.2 [recordA, recordC]
      (by
        intro r hr
        simp only [List.mem_cons, List.mem_singleton, List.not_mem_nil, or_false] at hr
        rcases hr with h | h
        · exact h ▸ recordA_hyphenFree
        · exact h ▸ recordC_hyphenFree)).2 "C1" "5.0" recordA (by decide) (by decide)⟩

/-! ### The relay handlers -/

theorem getSlackChannel_none (svc : MappingService) (c : String)
    (h : ∀ e ∈ svc.mappings, e.telegramChannel ≠ c) :
    getSlackChannelForTelegramChannel svc c = none := by
  have hf : svc.mappings.find? (fun m => decide (m.telegramChannel = c)) = none := by
    rw [List.find?_eq_none]
    intro e he
    simpa using h e he
  simp [getSlackChannelForTelegramChannel, hf]

theorem getTelegramChannel_none (svc : MappingService) (s : String)
    (h : ∀ e ∈ svc.mappings, e.slackChannel ≠ s) :
    getTelegramChannelForSlackChannel svc s = none := by
  have hf : svc.mappings.find? (fun m => decide (m.slackChannel = s)) = none := by
    rw [List.find?_eq_none]
    intro e he
    simpa using h e he
  simp [getTelegramChannelForSlackChannel, hf]

/-- C6: a Telegram post whose channel id is the `telegramChannel` of no mapping, and a
Slack message whose channel id is the `slackChannel` of no mapping, make
`handleChannelMessage` issue no call at all and leave the service, the correlation index
included, as it was. -/
theorem unmapped_channel_dropped (w : World) (svc : MappingService) :
    (∀ msg : TgMessage,
      (∀ e ∈ svc.mappings, e.telegramChannel ≠ toString msg.chat.id) →
      TelegramBotHandler.handleChannelMessage w svc msg =
        { calls := [], service := svc, thrown := none }) ∧
    (∀ (telegramBot : Bool) (message : SlackMessage),
      (∀ e ∈ svc.mappings, e.slackChannel ≠ message.channel) →
      SlackBotHandler.handleChannelMessage w telegramBot svc message =
        { calls := [], service := svc, thrown := none }) := by
  constructor
  · intro msg h
    simp [TelegramBotHandler.handleChannelMessage, getSlackChannel_none svc _ h]
  · intro tb message h
    simp [SlackBotHandler.handleChannelMessage, getTelegramChannel_none svc _ h]

theorem getD_of_not_truthy (o : Option String) (h : truthy o = false) : o.getD "" = "" := by
  cases o with
  | none => rfl
  | some s => simpa [truthy] using h

/-- The text sent to Slack is the context line, when the chat has a title, then the
text of the post, then the media notice, when the post carries media. -/
theorem telegramMessageText_eq (msg : TgMessage) :
    telegramMessageText msg =
      (if truthy msg.chat.title then
          "*From Telegram channel \"" ++ msg.chat.title.getD "" ++ "\":*\n\n"
        else "") ++
      msg.text.getD "" ++
      (if msg.photo || msg.video || msg.document || msg.voice || msg.animation then
          "\n\n_[Media content is present but cannot be directly embedded - check original channel]_"
        else "") := by
  unfold telegramMessageText
  by_cases h1 : truthy msg.chat.title = true <;>
    by_cases h2 : truthy msg.text = true <;>
    by_cases h3 : (msg.photo || msg.video || msg.document || msg.voice || msg.animation) = true
  all_goals
    first
      | (simp only [Bool.not_eq_true] at h2
         simp [h1, h2, h3, getD_of_not_truthy _ h2])
      | simp [h1, h2, h3]

/-- C9, as stated, fails: for the post `postPhoto`, which is not a reply, in the mapped
channel `100`, the one `chat.postMessage` carries a text that goes on after the context
line and the text of the post. -/
theorem photo_post_text_has_notice :
    postPhoto.reply_to_message = none ∧
    getSlackChannelForTelegramChannel serviceOne (toString postPhoto.chat.id) = some "C1" ∧
    (TelegramBotHandler.handleChannelMessage worldOne serviceOne postPhoto).calls =
      [Call.chatPostMessage
        { channel := "C1"
          text := "*From Telegram channel \"News\":*\n\nhello\n\n_[Media content is present but cannot be directly embedded - check original channel]_"
          parse := "full"
          unfurl_links := true
          thread_ts := none }] ∧
    (TelegramBotHandler.handleChannelMessage worldOne serviceOne postPhoto).calls ≠
      [Call.chatPostMessage
        { channel := "C1"
          text := "*From Telegram channel \"News\":*\n\n" ++ "hello"
          parse := "full"
          unfurl_links := true
          thread_ts := none }] := by
  decide

/-- C9, amended: for a Telegram post that is not a reply, with message id `m`, in a
channel `c` that the mappings resolve to the non-empty Slack channel `s`, and for which
`chat.postMessage` returns the non-empty timestamp `t`, `handleChannelMessage` issues
exactly one call, a `chat.postMessage` to `s` without `thread_ts`, whose text is the
context line (when the chat has a title), then the text of the post, then the media
notice (when the post carries a photo, video, document, voice or animation); and
afterwards the lookups by `(c, m)` and by `(s, t)` return one and the same record, with
ids `(c, m, s, t)`, whatever the index held before. -/
theorem new_post_relayed (w : World) (svc : MappingService) (msg : TgMessage)
    (s t : String)
    (hreply : msg.reply_to_message = none)
    (hmap : getSlackChannelForTelegramChannel svc (toString msg.chat.id) = some s)
    (hs : s ≠ "")
    (hsend : w.chatPostMessage
      { channel := s, text := telegramMessageText msg, parse := "full",
        unfurl_links := true, thread_ts := none } = Except.ok (some t))
    (ht : t ≠ "") :
    (TelegramBotHandler.handleChannelMessage w svc msg).calls =
      [Call.chatPostMessage
        { channel := s, text := telegramMessageText msg, parse := "full",
          unfurl_links := true, thread_ts := none }] ∧
    telegramMessageText msg =
      (if truthy msg.chat.title then
          "*From Telegram channel \"" ++ msg.chat.title.getD "" ++ "\":*\n\n"
        else "") ++
      msg.text.getD "" ++
      (if msg.photo || msg.video || msg.document || msg.voice || msg.animation then
          "\n\n_[Media content is present but cannot be directly embedded - check original channel]_"
        else "") ∧
    getMessageMappingByTelegramMessage
        (TelegramBotHandler.handleChannelMessage w svc msg).service
        (toString msg.chat.id) (toString msg.message_id) =
      some { telegramChannelId := some (toString msg.chat.id)
             telegramMessageId := some (toString msg.message_id)
             slackChannelId := some s
             slackMessageTs := some t
             parentTelegramMessageId := none
             parentSlackMessageTs := none } ∧
    getMessageMappingBySlackMessage
        (TelegramBotHandler.handleChannelMessage w svc msg).service s t =
      some { telegramChannelId := some (toString msg.chat.id)
             telegramMessageId := some (toString msg.message_id)
             slackChannelId := some s
             slackMessageTs := some t
             parentTelegramMessageId := none
             parentSlackMessageTs := none } := by
  have hthread : telegramSlackThreadTs svc (toString msg.chat.id) msg = none := by
    simp [telegramSlackThreadTs, hreply]
  have hrun : TelegramBotHandler.handleChannelMessage w svc msg =
      { calls := [Call.chatPostMessage
          { channel := s, text := telegramMessageText msg, parse := "full",
            unfurl_links := true, thread_ts := none }]
        service := storeMessageMapping svc
          { telegramChannelId := some (toString msg.chat.id)
            telegramMessageId := some (toString msg.message_id)
            slackChannelId := some s
            slackMessageTs := some t
            parentTelegramMessageId := none
            parentSlackMessageTs := none }
        thrown := none } := by
    simp [TelegramBotHandler.handleChannelMessage, hmap, hs, hthread, hsend, hreply, truthy]
  have hkt := telegramKeyOf_of_truthy
    { telegramChannelId := some (toString msg.chat.id)
      telegramMessageId := some (toString msg.message_id)
      slackChannelId := some s
      slackMessageTs := some t
      parentTelegramMessageId := none
      parentSlackMessageTs := none } _ _ rfl rfl
    (int_toString_ne_empty _) (int_toString_ne_empty _)
  have hks := slackKeyOf_of_truthy
    { telegramChannelId := some (toString msg.chat.id)
      telegramMessageId := some (toString msg.message_id)
      slackChannelId := some s
      slackMessageTs := some t
      parentTelegramMessageId := none
      parentSlackMessageTs := none } _ _ rfl rfl hs ht
  rw [hrun]
  refine ⟨rfl, telegramMessageText_eq msg, ?_, ?_⟩
  · show (storeMessageMapping svc _).messageIdMappings.get _ = _
    rw [storeMessageMapping_get, hkt, hks]
    simp
  · show (storeMessageMapping svc _).messageIdMappings.get _ = _
    rw [storeMessageMapping_get, hks]
    simp

/-- Witness of the amended C9 on the post `postHello`. -/
theorem new_post_relayed_witness :
    (TelegramBotHandler.handleChannelMessage worldOne serviceOne postHello).calls =
      [Call.chatPostMessage
        { channel := "C1", text := telegramMessageText postHello, parse := "full",
          unfurl_links := true, thread_ts := none }] ∧
    telegramMessageText postHello =
      (if truthy postHello.chat.title then
          "*From Telegram channel \"" ++ postHello.chat.title.getD "" ++ "\":*\n\n"
        else "") ++
      postHello.text.getD "" ++
      (if postHello.photo || postHello.video || postHello.document || postHello.voice ||
          postHello.animation then
          "\n\n_[Media content is present but cannot be directly embedded - check original channel]_"
        else "") ∧
    getMessageMappingByTelegramMessage
        (TelegramBotHandler.handleChannelMessage worldOne serviceOne postHello).service
        (toString postHello.chat.id) (toString postHello.message_id) =
      some { telegramChannelId := some (toString postHello.chat.id)
             telegramMessageId := some (toString postHello.message_id)
             slackChannelId := some "C1"
             slackMessageTs := some "1700000000.000100"
             parentTelegramMessageId := none
             parentSlackMessageTs := none } ∧
    getMessageMappingBySlackMessage
        (TelegramBotHandler.handleChannelMessage worldOne serviceOne postHello).service
        "C1" "1700000000.000100" =
      some { telegramChannelId := some (toString postHello.chat.id)
             telegramMessageId := some (toString postHello.message_id)
             slackChannelId := some "C1"
             slackMessageTs := some "1700000000.000100"
             parentTelegramMessageId := none
             parentSlackMessageTs := none } :=
  new_post_relayed worldOne serviceOne postHello "C1" "1700000000.000100"
    rfl (by decide) (by decide) rfl (by decide)

/-- Witness of C6: a post in the Telegram channel `200` and a message in the Slack
channel `C9`, with the one mapping `("100", "C1")`. -/
theorem unmapped_channel_dropped_witness :
    TelegramBotHandler.handleChannelMessage worldOne serviceOne postElsewhere =
      { calls := [], service := serviceOne, thrown := none } ∧
    SlackBotHandler.handleChannelMessage worldOne true serviceOne slackElsewhere =
      { calls := [], service := serviceOne, thrown := none } :=
  ⟨(unmapped_channel_dropped worldOne serviceOne).1 postElsewhere (by decide),
    (unmapped_channel_dropped worldOne serviceOne).2 true slackElsewhere (by decide)⟩

theorem slackContext_no_send (w : World) (message : SlackMessage) :
    (slackContext w message).1.filter Call.isSend = [] := by
  unfold slackContext
  cases w.conversationsInfo message.channel with
  | error e => rfl
  | ok channelName =>
    by_cases hu : truthy message.user = true
    · simp only [hu, if_true]
      cases w.usersInfo (message.user.getD "") <;> rfl
    · simp only [hu]
      rfl

theorem telegram_calls_of_thread (w : World) (svc : MappingService) (msg : TgMessage)
    (s : String) (hmap : getSlackChannelForTelegramChannel svc (toString msg.chat.id) = some s)
    (hs : s ≠ "") (th : Option String)
    (hth : (if truthy (telegramSlackThreadTs svc (toString msg.chat.id) msg) then
      telegramSlackThreadTs svc (toString msg.chat.id) msg else none) = th) :
    (TelegramBotHandler.handleChannelMessage w svc msg).calls =
      [Call.chatPostMessage
        { channel := s, text := telegramMessageText msg, parse := "full",
          unfurl_links := true, thread_ts := th }] := by
  subst hth
  simp only [TelegramBotHandler.handleChannelMessage, hmap]
  have hts : truthy (some s) = true := by simp [truthy, hs]
  simp only [hts, Bool.not_true, Bool.false_eq_true, if_false]
  split <;> rfl

theorem slack_calls_of_reply (w : World) (svc : MappingService) (message : SlackMessage)
    (c : String) (hmap : getTelegramChannelForSlackChannel svc message.channel = some c)
    (hc : c ≠ "") (re : Option String)
    (hre : (if truthy (slackReplyToMessageId svc message) then
      slackReplyToMessageId svc message else none) = re) :
    (SlackBotHandler.handleChannelMessage w true svc message).calls.filter Call.isSend =
      [Call.sendMessage c (slackMessageText (slackContext w message).2 message)
        { parse_mode := "Markdown", reply_to_message_id := re }] := by
  subst hre
  simp only [SlackBotHandler.handleChannelMessage, hmap]
  have hts : truthy (some c) = true := by simp [truthy, hc]
  simp only [hts, Bool.not_true, Bool.false_eq_true, Bool.or_self, if_false]
  split <;> simp [List.filter_append, slackContext_no_send, Call.isSend]

/-- C5: a new Telegram post in a channel that the mappings resolve to a Slack channel
`s`, replying to a message `p`, is posted to `s` with `thread_ts = d` when the index
holds a correlation for `(channel, p)` with Slack timestamp `d`, and without `thread_ts`
when the index holds no correlation for `(channel, p)`; a new Slack message in a
channel that the mappings resolve to a Telegram channel `c`, with a `thread_ts` `p`
other than its own `ts`, is sent to `c` with `reply_to_message_id = d` when the index
holds a correlation for `(channel, p)` with Telegram message id `d`, and without
`reply_to_message_id` when the index holds no correlation for `(channel, p)`. In every
case exactly one send is issued. Ids are non-empty strings. -/
theorem reply_linkage (w : World) (svc : MappingService) :
    (∀ (msg : TgMessage) (reply : TgReplyTo) (s : String),
      getSlackChannelForTelegramChannel svc (toString msg.chat.id) = some s → s ≠ "" →
      msg.reply_to_message = some reply →
      (∀ (r : MessageMapping) (d : String),
        getMessageMappingByTelegramMessage svc (toString msg.chat.id)
          (toString reply.message_id) = some r →
        r.slackMessageTs = some d → d ≠ "" →
        (TelegramBotHandler.handleChannelMessage w svc msg).calls =
          [Call.chatPostMessage
            { channel := s, text := telegramMessageText msg, parse := "full",
              unfurl_links := true, thread_ts := some d }]) ∧
      (getMessageMappingByTelegramMessage svc (toString msg.chat.id)
          (toString reply.message_id) = none →
        (TelegramBotHandler.handleChannelMessage w svc msg).calls =
          [Call.chatPostMessage
            { channel := s, text := telegramMessageText msg, parse := "full",
              unfurl_links := true, thread_ts := none }])) ∧
    (∀ (message : SlackMessage) (p c : String),
      getTelegramChannelForSlackChannel svc message.channel = some c → c ≠ "" →
      message.thread_ts = some p → p ≠ "" → p ≠ message.ts →
      (∀ (r : MessageMapping) (d : String),
        getMessageMappingBySlackMessage svc message.channel p = some r →
        r.telegramMessageId = some d → d ≠ "" →
        (SlackBotHandler.handleChannelMessage w true svc message).calls.filter Call.isSend =
          [Call.sendMessage c (slackMessageText (slackContext w message).2 message)
            { parse_mode := "Markdown", reply_to_message_id := some d }]) ∧
      (getMessageMappingBySlackMessage svc message.channel p = none →
        (SlackBotHandler.handleChannelMessage w true svc message).calls.filter Call.isSend =
          [Call.sendMessage c (slackMessageText (slackContext w message).2 message)
            { parse_mode := "Markdown", reply_to_message_id := none }])) := by
  constructor
  · intro msg reply s hmap hs hreply
    constructor
    · intro r d hget hd hdne
      apply telegram_calls_of_thread w svc msg s hmap hs
      simp [telegramSlackThreadTs, hreply, hget, hd, truthy, hdne]
    · intro hget
      apply telegram_calls_of_thread w svc msg s hmap hs
      simp [telegramSlackThreadTs, hreply, hget, truthy]
  · intro message p c hmap hc hp hpne hpts
    have hthread : isThreadReply message = true := by
      simp [isThreadReply, hp, truthy, hpne, hpts]
    constructor
    · intro r d hget hd hdne
      apply slack_calls_of_reply w svc message c hmap hc
      simp [slackReplyToMessageId, hthread, hp, hget, hd, truthy, hdne]
    · intro hget
      apply slack_calls_of_reply w svc message c hmap hc
      simp [slackReplyToMessageId, hthread, hp, hget, truthy]

/-- Witness of C5: the Telegram reply `postReply` and the Slack thread reply
`slackReply`, each with the parent correlated (`serviceWithA`) and not correlated
(`serviceOne`). -/
theorem reply_linkage_witness :
    ((TelegramBotHandler.handleChannelMessage worldOne serviceWithA postReply).calls =
        [Call.chatPostMessage
          { channel := "C1", text := telegramMessageText postReply, parse := "full",
            unfurl_links := true, thread_ts := some "5.0" }] ∧
      (TelegramBotHandler.handleChannelMessage worldOne serviceOne postReply).calls =
        [Call.chatPostMessage
          { channel := "C1", text := telegramMessageText postReply, parse := "full",
            unfurl_links := true, thread_ts := none }]) ∧
    ((SlackBotHandler.handleChannelMessage worldOne true serviceWithA slackReply).calls.filter
          Call.isSend =
        [Call.sendMessage "100" (slackMessageText (slackContext worldOne slackReply).2 slackReply)
          { parse_mode := "Markdown", reply_to_message_id := some "1" }] ∧
      (SlackBotHandler.handleChannelMessage worldOne true serviceOne slackReply).calls.filter
          Call.isSend =
        [Call.sendMessage "100" (slackMessageText (slackContext worldOne slackReply).2 slackReply)
          { parse_mode := "Markdown", reply_to_message_id := none }]) :=
  ⟨⟨((reply_linkage worldOne serviceWithA).1 postReply { message_id := 1 } "C1"
        (by decide) (by decide) rfl).1 recordA "5.0" (by decide) rfl (by decide),
     ((reply_linkage worldOne serviceOne).1 postReply { message_id := 1 } "C1"
        (by decide) (by decide) rfl).2 (by decide)⟩,
   ⟨((reply_linkage worldOne serviceWithA).2 slackReply "5.0" "100"
        (by decide) (by decide) rfl (by decide) (by decide)).1 recordA "1"
        (by decide) rfl (by decide),
     ((reply_linkage worldOne serviceOne).2 slackReply "5.0" "100"
        (by decide) (by decide) rfl (by decide) (by decide)).2 (by decide)⟩⟩

theorem key_head_of_owned (L : List MessageMapping) (m : JsMap) (h : KeysOwned L m)
    (k : String) (r : MessageMapping) (hk : m.get k = some r) :
    k.data.head? = some 't' ∨ k.data.head? = some 's' := by
  rcases (h k r hk).2 with h1 | h1
  · obtain ⟨c, x, _, _, e⟩ := telegramKeyOf_eq_some r k h1
    left
    rw [e]
    simp [telegramKey, String.data_append]
  · obtain ⟨s, t, _, _, e⟩ := slackKeyOf_eq_some r k h1
    right
    rw [e]
    simp [slackKey, String.data_append]

/-- After any sequence of `storeMessageMapping` calls from the empty index,
`getMessageMapping` finds nothing under the decimal ids of a Telegram message, since its
key starts with a digit or a minus sign and every stored key starts with `telegram-` or
`slack-`; so `handleEditedChannelMessage` issues no call. -/
theorem edit_never_updates (rs : List MessageMapping) (mappings : List ChannelMapping)
    (msg : TgMessage) :
    (TelegramBotHandler.handleEditedChannelMessage
      (storeAll { mappings := mappings, messageIdMappings := [] } rs) msg).calls = [] := by
  have hinv : KeysOwned rs
      (storeAll { mappings := mappings, messageIdMappings := [] } rs).messageIdMappings :=
    keysOwned_storeAll rs rs (fun _ h => h) _
      (by intro k r hk; simp [JsMap.get] at hk)
  have hnone : getMessageMapping
      (storeAll { mappings := mappings, messageIdMappings := [] } rs)
      (toString msg.chat.id) (toString msg.message_id) = none := by
    cases hg : getMessageMapping
      (storeAll { mappings := mappings, messageIdMappings := [] } rs)
      (toString msg.chat.id) (toString msg.message_id) with
    | none => rfl
    | some r =>
      exfalso
      have hh := key_head_of_owned rs _ hinv _ r hg
      obtain ⟨c, hc, hct, hcs⟩ := int_toString_head msg.chat.id
      have hhead : (toString msg.chat.id ++ "-" ++ toString msg.message_id).data.head? =
          some c := by
        simp only [String.data_append, List.append_assoc]
        cases hd : (toString msg.chat.id).data with
        | nil => rw [hd] at hc; simp at hc
        | cons x xs =>
          rw [hd] at hc
          simpa using hc
      rw [hhead] at hh
      rcases hh with h | h
      · exact hct (Option.some.inj h)
      · exact hcs (Option.some.inj h)
  simp [TelegramBotHandler.handleEditedChannelMessage, hnone]

/-- C4 at the failing input: after the post `postHello` has been relayed and its
correlation stored, with Slack timestamp `1700000000.000100`, the edit `editHello` of
the same message in the same channel makes `handleEditedChannelMessage` issue no call. -/
theorem edit_after_post_issues_no_update :
    getMessageMappingByTelegramMessage
        (TelegramBotHandler.onChannelPost worldOne serviceOne postHello).service "100" "1" =
      some { telegramChannelId := some "100", telegramMessageId := some "1",
             slackChannelId := some "C1", slackMessageTs := some "1700000000.000100",
             parentTelegramMessageId := none, parentSlackMessageTs := none } ∧
    (editHello.chat.id = postHello.chat.id ∧ editHello.message_id = postHello.message_id) ∧
    (TelegramBotHandler.handleEditedChannelMessage
      (TelegramBotHandler.onChannelPost worldOne serviceOne postHello).service
      editHello).calls = [] := by
  decide

/-- The Slack listener drops a message with subtype `bot_message` or with a `bot_id`:
no call, and the service as it was. -/
theorem slack_bot_message_discarded (w : World) (telegramBot : Bool) (svc : MappingService)
    (message : SlackMessage)
    (h : message.subtype = some "bot_message" ∨ truthy message.bot_id = true) :
    SlackBotHandler.onMessage w telegramBot svc message =
      { calls := [], service := svc, thrown := none } := by
  unfold SlackBotHandler.onMessage
  rcases h with h | h <;> simp [h]

/-- C7 at the failing input: the post `postFromBot`, whose sender Telegram flags as a
bot, is relayed by the `channel_post` listener: one `chat.postMessage` is issued and a
correlation is stored. -/
theorem telegram_bot_post_relayed :
    postFromBot.from_user = some { is_bot := true } ∧
    (TelegramBotHandler.onChannelPost worldOne serviceOne postFromBot).calls =
      [Call.chatPostMessage
        { channel := "C1", text := "*From Telegram channel \"News\":*\n\nhello",
          parse := "full", unfurl_links := true, thread_ts := none }] ∧
    getMessageMappingByTelegramMessage
        (TelegramBotHandler.onChannelPost worldOne serviceOne postFromBot).service "100" "1" =
      some { telegramChannelId := some "100", telegramMessageId := some "1",
             slackChannelId := some "C1", slackMessageTs := some "1700000000.000100",
             parentTelegramMessageId := none, parentSlackMessageTs := none } := by
  decide

end TgSlackBot
